import Mathlib

/-!
Shallow embedding of the result-verification engine of the folding repository:
SyntheticMDEvaluator (folding/rewards/evaluation_registry.py) and
OpenMMSimulation.create_simulation (folding/base/simulation.py).

Integration steps are integers (ℤ), potential energies are rationals (ℚ).
The physics adapter (OpenMM) is external per the specification: its outputs
(sampled energies, checkpoint step counters) and its possible exceptions are
inputs to the embedded functions.  Where IEEE-754 special values (NaN, inf)
arise from numpy expressions in the source, they are modelled explicitly
(PyFloat below); comparisons with NaN are False, as in IEEE-754.
-/

namespace Folding

/-- Modelled from the spec: the module folding/utils/constants.py is not in
src/, only its uses are.  Section 6 of the spec lists these as overridable
configuration constants ("minimum log rows, minimum simulation-step lag,
maximum steps evaluated per pass, state/checkpoint percent-difference
threshold, anomaly percent-difference threshold"), so the embedding is
parameterised over them.  The gradient window (50), gradient threshold (10)
and sampling stride (10) are literals in the source and are inlined. -/
structure Consts where
  MIN_LOGGING_ENTRIES : ℕ
  MIN_SIMULATION_STEPS : ℤ
  MAX_SIMULATION_STEPS_FOR_EVALUATION : ℤ
  XML_CHECKPOINT_THRESHOLD : ℚ
  ANOMALY_THRESHOLD : ℚ

/-- Consecutive differences, np.diff. -/
def npDiff (l : List ℚ) : List ℚ := (l.zip l.tail).map fun p => p.2 - p.1

/-- np.mean; the mean of an empty array is NaN, modelled as none. -/
def npMean (l : List ℚ) : Option ℚ :=
  if l.isEmpty then none else some (l.sum / l.length)

/-- Insert into a sorted list (ascending). -/
def insertSorted (x : ℚ) : List ℚ → List ℚ
  | [] => [x]
  | y :: ys => if x ≤ y then x :: y :: ys else y :: insertSorted x ys

/-- Ascending sort, used to model the sorting inside np.median. -/
def sortAsc (l : List ℚ) : List ℚ := l.foldr insertSorted []

/-- np.median of a nonempty array: middle element of the sorted array, or the
average of the two middle elements for even length.  (np.median of an empty
array is NaN; this total version returns the junk value 0 there and is only
applied to nonempty lists; npMedianOpt is the NaN-aware version.) -/
def npMedian (l : List ℚ) : ℚ :=
  let s := sortAsc l
  let n := s.length
  if n % 2 = 1 then s.getD (n / 2) 0
  else (s.getD (n / 2 - 1) 0 + s.getD (n / 2) 0) / 2

/-- np.median with the empty case (NaN) made explicit as none. -/
def npMedianOpt (l : List ℚ) : Option ℚ :=
  if l.isEmpty then none else some (npMedian l)

/-- Python slice l[-n:]: the last n elements (all of them if fewer). -/
def lastN (l : List ℚ) (n : ℕ) : List ℚ := l.drop (l.length - n)

/-- SyntheticMDEvaluator.check_gradient (evaluation_registry.py lines
147-156): mean of np.diff over the first WINDOW = 50 samples must be at most
GRADIENT_THRESHOLD = 10.  With fewer than two samples np.diff is empty, its
mean is NaN, and NaN <= 10 is False, so the check fails. -/
def check_gradient (check_energies : List ℚ) : Bool :=
  match npMean (npDiff (check_energies.take 50)) with
  | none => false
  | some mean_gradient => decide (mean_gradient ≤ 10)

/-- SyntheticMDEvaluator.compare_state_to_cpt (lines 158-176): compare the
medians of the first WINDOW = 50 state and checkpoint energies; fail when the
relative percent difference exceeds XML_CHECKPOINT_THRESHOLD.  Float
semantics of the source expression abs((sm - cm) / cm) * 100 > threshold:
with an empty window a median is NaN and NaN > t is False (so the function
returns True); with cm = 0 the quotient is NaN when sm = 0 (0/0, comparison
False, return True) and ±inf otherwise (comparison True, return False). -/
def compare_state_to_cpt (C : Consts) (state_energies checkpoint_energies : List ℚ) : Bool :=
  match npMedianOpt (state_energies.take 50), npMedianOpt (checkpoint_energies.take 50) with
  | some sm, some cm =>
      if cm = 0 then decide (sm = 0)
      else decide (¬ (|(sm - cm) / cm| * 100 > C.XML_CHECKPOINT_THRESHOLD))
  | _, _ => true

/-- A numpy float64 value that may be NaN or +inf; the per-step absolute
percent differences in the anomaly stage can be NaN (0/0) or +inf (x/0). -/
inductive PyFloat where
  | val (q : ℚ)
  | posInf
  | nan
deriving DecidableEq

def PyFloat.isNan : PyFloat → Bool
  | .nan => true
  | _ => false

/-- The finite value of a PyFloat, if any. -/
def PyFloat.valOf : PyFloat → Option ℚ
  | .val q => some q
  | _ => none

/-- One entry of abs(((check - miner) / miner) * 100) under float semantics:
dividing by a zero miner energy gives NaN for 0/0 and ±inf otherwise (made
+inf by abs). -/
def pdEntry (c m : ℚ) : PyFloat :=
  if m = 0 then (if c = 0 then .nan else .posInf)
  else .val (|(c - m) / m| * 100)

/-- The elementwise numpy expression abs(((check_energies - miner_energies) /
miner_energies) * 100) (line 260).  numpy broadcasting: equal shapes operate
elementwise, a length-1 operand broadcasts, anything else raises a
ValueError (which the surrounding try/except catches). -/
def percentDiffs (check miner : List ℚ) : Except String (List PyFloat) :=
  if check.length = miner.length then
    .ok ((check.zip miner).map fun p => pdEntry p.1 p.2)
  else if miner.length = 1 then
    .ok (check.map fun cv => pdEntry cv (miner.headD 0))
  else if check.length = 1 then
    .ok (miner.map fun mv => pdEntry (check.headD 0) mv)
  else .error "operands could not be broadcast together"

/-- np.median over float64 values: any NaN (or an empty array) makes the
median NaN; otherwise +inf entries sort above all finite entries and the
median is the middle of the sorted sequence (averaging with +inf gives
+inf). -/
def medianPD (l : List PyFloat) : PyFloat :=
  if l.isEmpty || l.any PyFloat.isNan then .nan
  else
    let vals := sortAsc (l.filterMap PyFloat.valOf)
    let pick : ℕ → PyFloat := fun i => if i < vals.length then .val (vals.getD i 0) else .posInf
    let n := l.length
    if n % 2 = 1 then pick (n / 2)
    else
      match pick (n / 2 - 1), pick (n / 2) with
      | .val a, .val b => .val ((a + b) / 2)
      | _, _ => .posInf

/-- Float comparison x > t where x may be NaN or +inf: NaN > t is False. -/
def PyFloat.gtq (x : PyFloat) (t : ℚ) : Bool :=
  match x with
  | .nan => false
  | .posInf => true
  | .val q => decide (t < q)

/-- The five failure signals raised inside the try block of is_run_valid
(raise statements at lines 213, 247, 251, 257, 264 of
evaluation_registry.py), plus exceptions raised by external calls inside the
same try block (engine construction, checkpoint loading, numpy broadcast
errors...), which carry their own message. -/
inductive Rejection where
  | stateGradient
  | reprodEnergiesIdentical
  | cptGradient
  | stateCheckpoint
  | anomaly
  | externalError (msg : String)
deriving DecidableEq

/-- Python 3 semantics of the raise statements of is_run_valid: the source
raises plain strings (raise "state-gradient" and so on), and in Python 3
raising a non-BaseException value itself raises TypeError("exceptions must
derive from BaseException").  That TypeError is what the handler
"except Exception as E" catches, so str(E) at line 279 is the TypeError
message, never the string literal at the raise site.  An exception raised by
an external call keeps its own message. -/
def raisedMessage : Rejection → String
  | .externalError msg => msg
  | _ => "exceptions must derive from BaseException"

/-- The behaviour of the external physics adapter during is_run_valid, which
the verifier consumes but does not define (spec section 1).  Lines 195-206
of the source (engine reconstruction from the pdb, loadState, the stepping
loop) run BEFORE the try statement; lines 216-243 (engine reconstruction,
loadCheckpoint, stepping, reading back the reporter log) run inside it. -/
structure ReplayEnv where
  /-- some msg: an exception (engine construction, loadState, stepping) is
  raised during the state replay, lines 195-206 — outside the try block. -/
  stateReplayError : Option String
  /-- potential energy sampled after the k-th block of 10 steps of the state
  replay (line 205). -/
  stateEnergy : ℕ → ℚ
  /-- some msg: an exception (engine construction, loadCheckpoint, stepping,
  log read) is raised during the checkpoint replay, lines 216-243 — inside
  the try block. -/
  cptReplayError : Option String
  /-- the Potential Energy column of the check log written by the verifier's
  own checkpoint-replay reporter (lines 242-243). -/
  checkEnergies : List ℚ

/-- Line 192: steps_to_run = min(MAX_SIMULATION_STEPS_FOR_EVALUATION,
log_step - cpt_step). -/
def steps_to_run (C : Consts) (log_step cpt_step : ℤ) : ℤ :=
  min C.MAX_SIMULATION_STEPS_FOR_EVALUATION (log_step - cpt_step)

/-- The state-replay energy samples (lines 202-206): the loop runs
steps_to_run // 10 times, sampling once per iteration.  Int.toNat sends a
negative quotient to 0, matching range() over a negative bound. -/
def stateEnergiesOf (C : Consts) (env : ReplayEnv) (log_step cpt_step : ℤ) : List ℚ :=
  (List.range ((steps_to_run C log_step cpt_step).toNat / 10)).map env.stateEnergy

/-- Outcome of the staged checks of is_run_valid, before the tuple at lines
276/279 is formed: either the run is valid (with the check and miner energy
vectors), or some stage rejected it. -/
inductive RunStatus where
  | valid (check_energies miner_energies : List ℚ)
  | rejected (r : Rejection)
deriving DecidableEq

/-- The staged checks of SyntheticMDEvaluator.is_run_valid (lines 178-279),
with the raise site made explicit.  Except.error models an exception that
propagates out of is_run_valid (there is no enclosing handler for the state
replay, which precedes the try statement). -/
def is_run_valid_run (C : Consts) (env : ReplayEnv) (log : List (ℤ × ℚ))
    (log_step cpt_step : ℤ) : Except String RunStatus :=
  match env.stateReplayError with
  | some msg => .error msg
  | none =>
    let state_energies := stateEnergiesOf C env log_step cpt_step
    .ok <|
      if !(check_gradient state_energies) then .rejected .stateGradient
      else
        match env.cptReplayError with
        | some msg => .rejected (.externalError msg)
        | none =>
          let n := steps_to_run C log_step cpt_step
          let miner_energies := (log.filter fun r =>
            decide (cpt_step < r.1) && decide (r.1 ≤ cpt_step + n)).map Prod.snd
          let check_energies := env.checkEnergies
          if check_energies.dedup.length = 1 then .rejected .reprodEnergiesIdentical
          else if !(check_gradient check_energies) then .rejected .cptGradient
          else if !(compare_state_to_cpt C state_energies check_energies) then
            .rejected .stateCheckpoint
          else
            match percentDiffs check_energies miner_energies with
            | .error msg => .rejected (.externalError msg)
            | .ok pds =>
              if (medianPD pds).gtq C.ANOMALY_THRESHOLD then .rejected .anomaly
              else .valid check_energies miner_energies

/-- SyntheticMDEvaluator.is_run_valid as the caller sees it: the 4-tuple
(valid, check_energies, miner_energies, reason) of lines 276 and 279.  On
any caught failure the two energy lists are returned empty and the reason is
str(E) of the caught exception (see raisedMessage). -/
def is_run_valid (C : Consts) (env : ReplayEnv) (log : List (ℤ × ℚ))
    (log_step cpt_step : ℤ) : Except String (Bool × List ℚ × List ℚ × String) :=
  (is_run_valid_run C env log log_step cpt_step).map fun
    | .valid ch mi => (true, ch, mi, "valid")
    | .rejected r => (false, [], [], raisedMessage r)

/-- A file name, represented by its dot-separated components, so that
k.split(".")[-1] is the last component (Python str.split never yields an
empty list, so a name has at least one component; getLastD covers the
vacuous [] with a junk value). -/
def lastExt (parts : List String) : String := parts.getLastD ""

/-- Line 34: the extensions of the files of md_output whose content is
nonempty (len(v) > 0); file contents are represented by their length. -/
def md_exts (md_output : List (List String × ℕ)) : List String :=
  (md_output.filter fun kv => decide (0 < kv.2)).map fun kv => lastExt kv.1

/-- Inputs of SyntheticMDEvaluator.process_md_output, with the external
adapter and file-system reads as oracles. -/
structure ProcInput where
  /-- the submitted md_output mapping, file name (as its dot-separated
  components) to content length. -/
  md_output : List (List String × ℕ)
  /-- some msg: create_simulation at line 59 raises (engine construction);
  this happens inside the try, whose handler returns False. -/
  createSimError : Option String
  /-- simulation.currentStep after loading the current checkpoint (line 69). -/
  cptStep : ℤ
  /-- the rows (step, potential energy) of the submitted log file (line 71). -/
  log : List (ℤ × ℚ)
  /-- some s: the fallback file state_old.cpt exists and loading it leaves
  simulation.currentStep = s (lines 84-89); none: no such file. -/
  oldCptStep : Option ℤ

/-- The distinct ways process_md_output returns False (every one of them is
logged and mapped to False; the enumeration keeps them apart for the
analysis of the freshness gate). -/
inductive ProcFailure where
  | emptyOutput
  | missingFile
  | setupError (msg : String)
  | insufficientLogging
  | insufficientProgress
deriving DecidableEq

/-- State established by a successful process_md_output: the parsed log,
log_step = log['#"Step"'].iloc[-1], and cpt_step = the current step of
whichever checkpoint was finally loaded. -/
structure ProcState where
  log : List (ℤ × ℚ)
  log_step : ℤ
  cpt_step : ℤ
deriving DecidableEq

/-- SyntheticMDEvaluator.process_md_output (lines 24-124) with the failure
modes explicit.  Reading iloc[-1] of an empty log raises IndexError, caught
by the catch-all handler, hence setupError there. -/
def process_md_output_run (C : Consts) (inp : ProcInput) : Except ProcFailure ProcState :=
  if inp.md_output.isEmpty then .error .emptyOutput
  else if !("cpt" ∈ md_exts inp.md_output ∧ "log" ∈ md_exts inp.md_output : Bool) then
    .error .missingFile
  else
    match inp.createSimError with
    | some msg => .error (.setupError msg)
    | none =>
      match (inp.log.map Prod.fst).getLast? with
      | none => .error (.setupError "single positional indexer is out-of-bounds")
      | some log_step =>
        if inp.log.length < C.MIN_LOGGING_ENTRIES then .error .insufficientLogging
        else if log_step - inp.cptStep < C.MIN_SIMULATION_STEPS then
          match inp.oldCptStep with
          | some oldStep =>
            if log_step - oldStep < C.MIN_SIMULATION_STEPS then .error .insufficientProgress
            else .ok ⟨inp.log, log_step, oldStep⟩
          | none => .error .insufficientProgress
        else .ok ⟨inp.log, log_step, inp.cptStep⟩

/-- process_md_output as the caller sees it: True on success, False on any
failure. -/
def process_md_output (C : Consts) (inp : ProcInput) : Bool :=
  (process_md_output_run C inp).isOk

/-- SyntheticMDEvaluator.check_masses (lines 126-145): zip the validator and
miner mass sequences and compare pairwise with exact equality; False at the
first mismatch, True when every zipped pair agrees. -/
def check_masses (validator_masses miner_masses : List ℚ) : Bool :=
  (validator_masses.zip miner_masses).all fun p => p.1 == p.2

/-- The index i logged at line 143 for the first mismatching pair, none when
every zipped pair agrees. -/
def firstMismatch (validator_masses miner_masses : List ℚ) : Option ℕ :=
  (validator_masses.zip miner_masses).findIdx? fun p => p.1 != p.2

/-- Inputs of SyntheticMDEvaluator._evaluate: the process_md_output inputs,
the two mass sequences (validator reference from the velm pkl, miner masses
recomputed from the reconstructed simulation), and the replay environment.
The mass sequences are given as values, so this input type stipulates that
the two unguarded external calls of check_masses — load_pkl of the velm
file and create_velm on the reconstructed simulation (lines 135-136) — did
not raise; likewise the save_files call at line 48.  EvalInputX below adds
the crash oracles for those sites. -/
structure EvalInput where
  proc : ProcInput
  validator_masses : List ℚ
  miner_masses : List ℚ
  env : ReplayEnv

/-- SyntheticMDEvaluator._evaluate (lines 281-296), under the stipulation
of EvalInput that save_files and the mass query did not raise.
Except.error models an exception propagating out of _evaluate: within this
input type the unguarded places are the state replay of is_run_valid
(before its try statement) and the row accesses log[1], log[0] of the
resolution check at line 289, which raise KeyError on a single-row log.
evaluate_exec below is the same pipeline with every unguarded site's crash
oracle explicit. -/
def evaluate (C : Consts) (inp : EvalInput) : Except String ℚ :=
  match process_md_output_run C inp.proc with
  | .error _ => .ok 0
  | .ok st =>
    if !(check_masses inp.validator_masses inp.miner_masses) then .ok 0
    else
      match st.log with
      | r0 :: r1 :: _ =>
        if r1.1 - r0.1 > 10 then .ok 0
        else
          (is_run_valid C inp.env st.log st.log_step st.cpt_step).map fun out =>
            if !out.1 then 0
            else npMedian (lastN out.2.1 10)
      | _ => .error "KeyError: 1"

/-- EvalInput extended with the crash oracles of the two remaining
unguarded external call sites of _evaluate: save_files at line 48, which
runs inside process_md_output after the empty/missing-file checks (lines
36-43) but before its try statement (line 53), and the mass query of
check_masses — load_pkl of the velm file and create_velm on the
reconstructed simulation (lines 135-136) — invoked from line 285 with no
enclosing handler. -/
structure EvalInputX extends EvalInput where
  /-- some msg: save_files (line 48) raises; no handler encloses it, so the
  exception propagates out of process_md_output and out of _evaluate. -/
  saveFilesError : Option String
  /-- some msg: load_pkl or create_velm (lines 135-136) raises inside
  check_masses; no handler encloses the call at line 285, so the exception
  propagates out of _evaluate. -/
  massQueryError : Option String

/-- SyntheticMDEvaluator._evaluate (lines 281-296) with every unguarded
call site's crash oracle explicit, in program order: the empty and
missing-file checks (lines 36-43) return False — scored 0 — before
save_files (line 48) can run; save_files raising crashes _evaluate; the
remainder of process_md_output runs inside its try, any failure scoring 0;
then the mass query of check_masses (lines 135-136) can crash _evaluate;
then the mass comparison, the resolution check (line 289, raising on a
single-row log), and is_run_valid (whose state replay precedes its try
statement) proceed as in evaluate. -/
def evaluate_exec (C : Consts) (inp : EvalInputX) : Except String ℚ :=
  if inp.proc.md_output.isEmpty then .ok 0
  else if !("cpt" ∈ md_exts inp.proc.md_output ∧ "log" ∈ md_exts inp.proc.md_output : Bool) then
    .ok 0
  else
    match inp.saveFilesError with
    | some msg => .error msg
    | none =>
      match process_md_output_run C inp.proc with
      | .error _ => .ok 0
      | .ok st =>
        match inp.massQueryError with
        | some msg => .error msg
        | none =>
          if !(check_masses inp.validator_masses inp.miner_masses) then .ok 0
          else
            match st.log with
            | r0 :: r1 :: _ =>
              if r1.1 - r0.1 > 10 then .ok 0
              else
                (is_run_valid C inp.env st.log st.log_step st.cpt_step).map fun out =>
                  if !out.1 then 0
                  else npMedian (lastN out.2.1 10)
            | _ => .error "KeyError: 1"

/-- A Python value stored in the system_config dict.  The isinstance test of
simulation.py line 188 distinguishes str/int/float/dict from everything
else; a value of any other type carries its str() rendering. -/
inductive PyValue where
  | str (s : String)
  | int (i : ℤ)
  | float (q : ℚ)
  | dict
  | other (strOf : String)
deriving DecidableEq

/-- The simulation parameter set handed to create_simulation (the
system_config dict): the named keys the function reads, plus any further
entries (extra), whose values may be of arbitrary Python type. -/
structure SystemConfig where
  ff : String
  water : String
  box_padding : ℚ
  box : String
  cutoff : ℚ
  constraints : String
  temperature : ℚ
  friction : ℚ
  time_step_size : ℚ
  seed : ℤ
  extra : List (String × PyValue)
deriving DecidableEq

/-- An exception raised inside create_simulation: either an external OpenMM
call raised, or one of the two Python name errors of the device-selection
code (lines 158-164 of simulation.py). -/
inductive PyError where
  | external (msg : String)
  | unboundLocalError (name : String)
  | nameError (name : String)
deriving DecidableEq

/-- OpenMMSimulation.create_simulation (folding/base/simulation.py lines
70-195) as a transformer of the system_config dict, which Python mutates in
place.  ext1 models an exception raised by the external calls at lines
87-114 (ForceField, Modeller, addHydrogens, addSolvent,
getUnitCellDimensions), before the cutoff code; ext2 models an exception
raised at lines 126-157 (createSystem, LangevinIntegrator,
getPlatformByName), after it; minBoxDim is the minimum unit-cell dimension
read at line 114 and idleGpus the result of get_idle_gpus() at line 158.
The cutoff write-back (lines 116-124) caps the cutoff to half the minimum
box dimension and stores the corrected value back into the dict.  Device
selection then always raises before the type-normalisation loop at lines
187-189 can run: with no idle GPU, line 160 reads the local variable
static_id before its assignment at line 161 (UnboundLocalError), and
otherwise line 164 calls logging.info although the name logging is never
imported in the module (NameError).  Construction therefore never completes
(success type Empty), and the only mutation ever applied to the dict is the
cutoff write-back. -/
def create_simulation (cfg : SystemConfig) (minBoxDim : ℚ) (idleGpus : List ℕ)
    (ext1 ext2 : Option String) : Except PyError Empty × SystemConfig :=
  match ext1 with
  | some msg => (.error (.external msg), cfg)
  | none =>
    let threshold := minBoxDim / 2
    let cfg1 := if cfg.cutoff > threshold then { cfg with cutoff := threshold } else cfg
    match ext2 with
    | some msg => (.error (.external msg), cfg1)
    | none =>
      match idleGpus with
      | [] => (.error (.unboundLocalError "static_id"), cfg1)
      | _ :: _ => (.error (.nameError "logging"), cfg1)

/-- The resolution pre-gate of _evaluate (line 289): rows 0 and 1 of the log
exist and their step difference is at most 10 (a log with fewer than two
rows makes the row access raise instead). -/
def strideOk : List (ℤ × ℚ) → Bool
  | r0 :: r1 :: _ => decide (r1.1 - r0.1 ≤ 10)
  | _ => false

/-! Concrete instances used by the counterexamples and witnesses below. -/

/-- A concrete constant assignment: MIN_LOGGING_ENTRIES = 10,
MIN_SIMULATION_STEPS = 50 (the value of the spec scenarios),
MAX_SIMULATION_STEPS_FOR_EVALUATION = 10000, XML_CHECKPOINT_THRESHOLD = 5,
ANOMALY_THRESHOLD = 10. -/
def testConsts : Consts := ⟨10, 50, 10000, 5, 10⟩

/-- A well-formed progress log: stride 10 on the first pair, energies all
-100, final step 1000. -/
def logC1 : List (ℤ × ℚ) :=
  [(0, -100), (10, -100), (910, -100), (920, -100), (930, -100), (940, -100),
   (950, -100), (960, -100), (970, -100), (980, -100), (990, -100), (1000, -100)]

/-- The worker energies of logC1 falling in the replayed range (900, 1000]. -/
def minerC1 : List ℚ := [-100, -100, -100, -100, -100, -100, -100, -100, -100, -100]

/-- A replay environment whose every stage passes, with energies around
-100 (potential energies of real systems are negative). -/
def envC1 : ReplayEnv where
  stateReplayError := none
  stateEnergy := fun _ => -100
  cptReplayError := none
  checkEnergies := [-100, -100, -100, -100, -100, -100, -100, -100, -100, -201/2]

def procC1 : ProcInput where
  md_output := [(["md", "cpt"], 5), (["md", "log"], 7)]
  createSimError := none
  cptStep := 900
  log := logC1
  oldCptStep := none

def inpC1 : EvalInput where
  proc := procC1
  validator_masses := [1, 12, 16]
  miner_masses := [1, 12, 16]
  env := envC1

/-- The state-replay energies diverge steeply (gradient 1000 per sample). -/
def envC2 : ReplayEnv where
  stateReplayError := none
  stateEnergy := fun n => 1000 * (n : ℚ)
  cptReplayError := none
  checkEnergies := []

/-- The engine raises while being reconstructed for the state replay. -/
def envC3 : ReplayEnv where
  stateReplayError := some "No template found for residue 1"
  stateEnergy := fun _ => 0
  cptReplayError := none
  checkEnergies := []

def inpC3 : EvalInput where
  proc := procC1
  validator_masses := [1, 12, 16]
  miner_masses := [1, 12, 16]
  env := envC3

/-- An empty submission paired with a state replay that raises nothing. -/
def inpC3w : EvalInput where
  proc := { md_output := [], createSimError := none, cptStep := 0,
            log := [(0, 0), (10, 0)], oldCptStep := none }
  validator_masses := []
  miner_masses := []
  env := { stateReplayError := none, stateEnergy := fun _ => 0,
           cptReplayError := none, checkEnergies := [] }

/-- inpC3 with neither save_files nor the mass query raising: the crash
comes from the state replay alone. -/
def inpC3x : EvalInputX where
  toEvalInput := inpC3
  saveFilesError := none
  massQueryError := none

/-- inpC3w with neither save_files nor the mass query raising. -/
def inpC3wx : EvalInputX where
  toEvalInput := inpC3w
  saveFilesError := none
  massQueryError := none

/-- Constant check energies together with a steeply rising state replay. -/
def envC4 : ReplayEnv where
  stateReplayError := none
  stateEnergy := fun n => 1000 * (n : ℚ)
  cptReplayError := none
  checkEnergies := [100, 100, 100]

/-- Constant check energies together with a flat (passing) state replay. -/
def envC4w : ReplayEnv where
  stateReplayError := none
  stateEnergy := fun _ => 0
  cptReplayError := none
  checkEnergies := [100, 100]

/-- A progress log whose first stride is 10 but whose second stride is 900. -/
def logC5 : List (ℤ × ℚ) :=
  [(0, 100), (10, 100), (910, 100), (920, 100), (930, 100), (940, 100),
   (950, 100), (960, 100), (970, 100), (980, 100), (990, 100), (1000, 100)]

def envC5 : ReplayEnv where
  stateReplayError := none
  stateEnergy := fun _ => 100
  cptReplayError := none
  checkEnergies := [100, 100, 100, 100, 100, 100, 100, 100, 100, 201/2]

def inpC5 : EvalInput where
  proc := { md_output := [(["md", "cpt"], 5), (["md", "log"], 7)],
            createSimError := none, cptStep := 900, log := logC5, oldCptStep := none }
  validator_masses := [1, 12, 16]
  miner_masses := [1, 12, 16]
  env := envC5

/-- A progress log with a wide first stride (100 steps). -/
def logC5w : List (ℤ × ℚ) :=
  [(0, 100), (100, 100), (200, 100), (300, 100), (400, 100), (500, 100),
   (600, 100), (700, 100), (800, 100), (900, 100), (1000, 100)]

def inpC5w : EvalInput where
  proc := { md_output := [(["md", "cpt"], 5), (["md", "log"], 7)],
            createSimError := none, cptStep := 900, log := logC5w, oldCptStep := none }
  validator_masses := [1, 12, 16]
  miner_masses := [1, 12, 16]
  env := envC5

/-- The freshness-gate scenario of the spec: checkpoint at step 980, log
final step 1000, no fallback checkpoint. -/
def procC6w : ProcInput where
  md_output := [(["md", "cpt"], 5), (["md", "log"], 7)]
  createSimError := none
  cptStep := 980
  log := [(910, 0), (920, 0), (930, 0), (940, 0), (950, 0), (960, 0),
          (970, 0), (980, 0), (990, 0), (1000, 0)]
  oldCptStep := none

/-- The state replay fails its gradient check, so is_run_valid rejects. -/
def envC10 : ReplayEnv where
  stateReplayError := none
  stateEnergy := fun n => 1000 * (n : ℚ)
  cptReplayError := none
  checkEnergies := []

/-! ## Theorems -/

/-- C8 (confirmed): engine construction mutates the simulation parameter set
only to write back the corrected nonbonded cutoff, capped to half the
minimum periodic box dimension, and only when the configured cutoff exceeds
that bound (and execution reaches the cutoff code); every other field of the
parameter set, the untyped extra entries included, is left unchanged. -/
theorem create_simulation_mutates_only_cutoff (cfg : SystemConfig) (minBoxDim : ℚ)
    (idleGpus : List ℕ) (ext1 ext2 : Option String) :
    (create_simulation cfg minBoxDim idleGpus ext1 ext2).2 =
      if ext1 = none ∧ cfg.cutoff > minBoxDim / 2 then { cfg with cutoff := minBoxDim / 2 }
      else cfg := by
  cases ext1 with
  | some m => simp [create_simulation]
  | none =>
    cases ext2 with
    | some m => simp [create_simulation]
    | none => cases idleGpus <;> simp [create_simulation]

/-- C9 (confirmed): check_masses only compares the common prefix of the two
mass sequences, because zip truncates to the shorter list: whenever one
sequence extends the other, the check passes, so extra or missing trailing
particles are not detected. -/
theorem check_masses_overlap_only (v rest : List ℚ) :
    check_masses v (v ++ rest) = true ∧ check_masses (v ++ rest) v = true := by
  constructor
  · induction v with
    | nil => simp [check_masses]
    | cons a t ih => simpa [check_masses] using ih
  · induction v with
    | nil => simp [check_masses, List.zip_nil_right]
    | cons a t ih => simpa [check_masses] using ih

/-- C10 (confirmed): whenever is_run_valid returns an invalid outcome, the
two trajectory lists of the outcome are empty: the caught-failure return at
line 279 is the only invalid return and it carries empty lists, exposing
only the reason string. -/
theorem is_run_valid_rejection_hides_trajectories (C : Consts) (env : ReplayEnv)
    (log : List (ℤ × ℚ)) (log_step cpt_step : ℤ) (ch mi : List ℚ) (r : String)
    (h : is_run_valid C env log log_step cpt_step = .ok (false, ch, mi, r)) :
    ch = [] ∧ mi = [] := by
  unfold is_run_valid at h
  cases hrun : is_run_valid_run C env log log_step cpt_step with
  | error e => rw [hrun] at h; simp [Except.map] at h
  | ok s =>
    rw [hrun] at h
    cases s with
    | valid a b => simp [Except.map] at h
    | rejected rj =>
      simp [Except.map] at h
      exact ⟨h.1, h.2.1⟩

theorem is_run_valid_rejection_hides_trajectories_witness :
    ([] : List ℚ) = [] ∧ ([] : List ℚ) = [] :=
  is_run_valid_rejection_hides_trajectories testConsts envC10 [] 1000 900 [] []
    "exceptions must derive from BaseException"
    (by norm_num [is_run_valid, is_run_valid_run, envC10, stateEnergiesOf, steps_to_run,
      check_gradient, npDiff, npMean, raisedMessage, Except.map, List.range, List.range.loop,
      testConsts])

/-- C2 (code_bug): when a replay stage fails, the reject reason retained in
the outcome is not the enumerated stable string of the raise site: raising a
plain string is a TypeError in Python 3, so every staged rejection carries
the reason "exceptions must derive from BaseException" — here for a
submission failing the state-gradient stage, whose reason should have been
"state-gradient". -/
theorem is_run_valid_reason_not_enumerated :
    is_run_valid testConsts envC2 [] 1000 900 =
      .ok (false, [], [], "exceptions must derive from BaseException")
    ∧ "exceptions must derive from BaseException" ≠ "state-gradient" := by
  constructor
  · norm_num [is_run_valid, is_run_valid_run, envC2, stateEnergiesOf, steps_to_run,
      check_gradient, npDiff, npMean, raisedMessage, Except.map, List.range, List.range.loop,
      testConsts]
  · decide

/-- C4 counterexample: a submission whose check energies are constant-valued
is NOT always rejected as reproduction-energies-identical: the state-gradient
stage runs first, so a failing state replay pre-empts the degenerate check
and the outcome is the state-gradient rejection instead. -/
theorem constant_replay_rejected_at_state_gradient :
    envC4.checkEnergies.dedup.length = 1
    ∧ is_run_valid_run testConsts envC4 [] 1000 900 = .ok (.rejected .stateGradient)
    ∧ Rejection.stateGradient ≠ Rejection.reprodEnergiesIdentical := by
  refine ⟨by decide, ?_, by decide⟩
  norm_num [is_run_valid_run, envC4, stateEnergiesOf, steps_to_run, check_gradient,
    npDiff, npMean, List.range, List.range.loop, testConsts]

/-- C4 (corrected): provided the state replay raises no exception and passes
the state-gradient check and the checkpoint replay raises no exception, a
constant-valued (hence nonempty) check-energy sequence is always rejected at
the reproduction-energies-identical raise site, whatever the remaining
stages would have said. -/
theorem constant_replay_rejected_as_reprod_identical (C : Consts) (env : ReplayEnv)
    (log : List (ℤ × ℚ)) (log_step cpt_step : ℤ)
    (h1 : env.stateReplayError = none)
    (h2 : check_gradient (stateEnergiesOf C env log_step cpt_step) = true)
    (h3 : env.cptReplayError = none)
    (h4 : env.checkEnergies.dedup.length = 1) :
    is_run_valid_run C env log log_step cpt_step = .ok (.rejected .reprodEnergiesIdentical) := by
  simp [is_run_valid_run, h1, h2, h3, h4]

theorem constant_replay_rejected_as_reprod_identical_witness :
    is_run_valid_run testConsts envC4w [] 1000 900 = .ok (.rejected .reprodEnergiesIdentical) :=
  constant_replay_rejected_as_reprod_identical testConsts envC4w [] 1000 900 rfl
    (by norm_num [check_gradient, stateEnergiesOf, steps_to_run, envC4w, npDiff, npMean,
      testConsts, List.range, List.range.loop])
    rfl (by decide)

/-- C6 (confirmed): the checkpoint-freshness gate of process_md_output.
With the artifact and logging pre-conditions satisfied, writing
lag = log_final_step - checkpoint_step: a submission with
lag at least MIN_SIMULATION_STEPS passes the gate keeping the current
checkpoint; with a smaller lag the verifier substitutes the old checkpoint
when one exists and re-checks the same threshold against its step, and the
submission is rejected as insufficient progress exactly when no fallback
exists or the fallback still fails the threshold. -/
theorem process_md_output_freshness_gate (C : Consts) (inp : ProcInput) (L : ℤ)
    (hne : inp.md_output.isEmpty = false)
    (hcpt : "cpt" ∈ md_exts inp.md_output) (hlog : "log" ∈ md_exts inp.md_output)
    (hsim : inp.createSimError = none)
    (hL : (inp.log.map Prod.fst).getLast? = some L)
    (hlen : C.MIN_LOGGING_ENTRIES ≤ inp.log.length) :
    (C.MIN_SIMULATION_STEPS ≤ L - inp.cptStep →
        process_md_output_run C inp = .ok ⟨inp.log, L, inp.cptStep⟩)
    ∧ (L - inp.cptStep < C.MIN_SIMULATION_STEPS → inp.oldCptStep = none →
        process_md_output_run C inp = .error .insufficientProgress)
    ∧ (∀ o, L - inp.cptStep < C.MIN_SIMULATION_STEPS → inp.oldCptStep = some o →
        L - o < C.MIN_SIMULATION_STEPS →
        process_md_output_run C inp = .error .insufficientProgress)
    ∧ (∀ o, L - inp.cptStep < C.MIN_SIMULATION_STEPS → inp.oldCptStep = some o →
        C.MIN_SIMULATION_STEPS ≤ L - o →
        process_md_output_run C inp = .ok ⟨inp.log, L, o⟩) := by
  refine ⟨?_, ?_, ?_, ?_⟩
  · intro h
    simp [process_md_output_run, hne, hcpt, hlog, hsim, hL, not_lt.mpr hlen, not_lt.mpr h]
  · intro h hold
    simp [process_md_output_run, hne, hcpt, hlog, hsim, hL, not_lt.mpr hlen, h, hold]
  · intro o h hold h2
    simp [process_md_output_run, hne, hcpt, hlog, hsim, hL, not_lt.mpr hlen, h, hold, h2]
  · intro o h hold h2
    simp [process_md_output_run, hne, hcpt, hlog, hsim, hL, not_lt.mpr hlen, h, hold,
      not_lt.mpr h2]

theorem process_md_output_freshness_gate_witness :
    process_md_output_run testConsts procC6w = .error .insufficientProgress :=
  (process_md_output_freshness_gate testConsts procC6w 1000 (by decide) (by decide) (by decide)
    rfl rfl (by decide)).2.1 (by decide) rfl

/-- Helper for the mass check: if the mass sequences agree below index i and
differ at i (both indices in range), findIdx? locates exactly i, for any
start offset s. -/
theorem findIdx_zip_mismatch (v : List ℚ) (m : List ℚ) (i s : ℕ)
    (hlen : m.length = v.length) (hi : i < v.length)
    (hagree : ∀ j, j < v.length → j ≠ i → v.getD j 0 = m.getD j 0)
    (hne : v.getD i 0 ≠ m.getD i 0) :
    List.findIdx? (fun p => p.1 != p.2) (v.zip m) s = some (s + i) := by
  induction v generalizing m i s with
  | nil => simp at hi
  | cons a t ih =>
    cases m with
    | nil => simp at hlen
    | cons b u =>
      cases i with
      | zero =>
        have hab : a ≠ b := by simpa using hne
        simp [List.findIdx?_cons, bne_iff_ne, hab]
      | succ j =>
        have hab : a = b := by
          have := hagree 0 (by simp) (by simp)
          simpa using this
        subst hab
        have hlen' : u.length = t.length := by simpa using hlen
        have hi' : j < t.length := by simpa using hi
        have hagree' : ∀ k, k < t.length → k ≠ j → t.getD k 0 = u.getD k 0 := by
          intro k hk hkj
          have := hagree (k + 1) (by simpa using hk) (by simpa using hkj)
          simpa using this
        have hne' : t.getD j 0 ≠ u.getD j 0 := by simpa using hne
        have hrec := ih u j (s + 1) hlen' hi' hagree' hne'
        rw [List.zip_cons_cons, List.findIdx?_cons]
        simp only [bne_self_eq_false, Bool.false_eq_true, if_false, hrec]
        congr 1
        omega

/-- Helper for the mass check: a located mismatch falsifies the pairwise
equality check. -/
theorem all_beq_false_of_findIdx_some (l : List (ℚ × ℚ)) (s k : ℕ)
    (h : List.findIdx? (fun p => p.1 != p.2) l s = some k) :
    l.all (fun p => p.1 == p.2) = false := by
  induction l generalizing s with
  | nil => simp [List.findIdx?] at h
  | cons x xs ih =>
    rw [List.findIdx?_cons] at h
    by_cases hx : (x.1 != x.2) = true
    · have hx' : (x.1 == x.2) = false := by simpa [bne] using hx
      simp [List.all_cons, hx']
    · have hx' : (x.1 != x.2) = false := by simpa using hx
      rw [hx'] at h
      simp only [Bool.false_eq_true, if_false] at h
      have hxeq : (x.1 == x.2) = true := by simpa [bne] using hx'
      simp [List.all_cons, hxeq, ih (s + 1) h]

/-- C7 (confirmed): the mass check compares the two mass sequences
element-wise with exact equality in original order and fails at the first
mismatching index, so altering exactly one mass value relative to the
reference sequence always produces a mass-mismatch rejection and the logged
index is the altered one. -/
theorem check_masses_single_alteration (v m : List ℚ) (i : ℕ)
    (hlen : m.length = v.length) (hi : i < v.length)
    (hagree : ∀ j, j < v.length → j ≠ i → v.getD j 0 = m.getD j 0)
    (hne : v.getD i 0 ≠ m.getD i 0) :
    check_masses v m = false ∧ firstMismatch v m = some i := by
  have hf := findIdx_zip_mismatch v m i 0 hlen hi hagree hne
  refine ⟨?_, by simpa [firstMismatch] using hf⟩
  have := all_beq_false_of_findIdx_some (v.zip m) 0 (0 + i) hf
  simpa [check_masses] using this

theorem check_masses_single_alteration_witness :
    check_masses [1, 12, 16] [1, 9, 16] = false
    ∧ firstMismatch [1, 12, 16] [1, 9, 16] = some 1 :=
  check_masses_single_alteration [1, 12, 16] [1, 9, 16] 1 (by decide) (by decide)
    (by
      intro j hj hji
      have hj3 : j < 3 := by simpa using hj
      interval_cases j <;> simp_all) (by decide)

/-- Helper: a successful process_md_output keeps the parsed log unchanged in
the evaluator state. -/
theorem process_md_output_run_ok_log (C : Consts) (inp : ProcInput) (st : ProcState)
    (h : process_md_output_run C inp = .ok st) : st.log = inp.log := by
  unfold process_md_output_run at h
  repeat' split at h
  all_goals cases h
  all_goals rfl

/-- C3 counterexample: an engine-construction error raised by the physics
adapter while the simulation is being reconstructed for the state replay
(before the try statement of is_run_valid) propagates out of _evaluate as a
crash instead of being converted into a rejected outcome — here with
save_files and the mass query explicitly raising nothing, so the crash is
the state replay's alone. -/
theorem evaluate_exec_crashes_on_state_replay_error :
    evaluate_exec testConsts inpC3x = .error "No template found for residue 1" := by
  norm_num [evaluate_exec, inpC3x, inpC3, procC1, process_md_output_run, md_exts, lastExt,
    logC1, testConsts, check_masses, is_run_valid, is_run_valid_run, envC3, Except.map]

/-- C3 (corrected): every failure inside the try blocks of process_md_output
and is_run_valid is converted into a zero-scored outcome, but _evaluate has
four unguarded sites whose exceptions propagate as crashes: save_files
(line 48, before process_md_output's try), the mass query of check_masses
(load_pkl/create_velm, lines 135-136, no enclosing handler), the state
replay of is_run_valid (lines 195-206, before its try), and the log row
accesses of the resolution check (line 289) on a single-row log.  When none
of those four raises, _evaluate always returns a score. -/
theorem evaluate_exec_total_when_unguarded_ok (C : Consts) (inp : EvalInputX)
    (h0 : inp.saveFilesError = none)
    (hmq : inp.massQueryError = none)
    (h1 : inp.env.stateReplayError = none)
    (h2 : 2 ≤ inp.proc.log.length) :
    ∃ q, evaluate_exec C inp = .ok q := by
  cases hE : inp.proc.md_output.isEmpty with
  | true => exact ⟨0, by simp [evaluate_exec, hE]⟩
  | false =>
    by_cases hM : ("cpt" ∈ md_exts inp.proc.md_output ∧ "log" ∈ md_exts inp.proc.md_output)
    · cases hp : process_md_output_run C inp.proc with
      | error e => exact ⟨0, by simp [evaluate_exec, hE, hM, h0, hmq, hp]⟩
      | ok st =>
        have hlog := process_md_output_run_ok_log C inp.proc st hp
        cases hm : check_masses inp.validator_masses inp.miner_masses with
        | false => exact ⟨0, by simp [evaluate_exec, hE, hM, h0, hmq, hp, hm]⟩
        | true =>
          obtain ⟨r0, r1, rest, hshape⟩ :
              ∃ r0 r1 rest, inp.proc.log = r0 :: r1 :: rest := by
            cases hc : inp.proc.log with
            | nil => rw [hc] at h2; simp at h2
            | cons r0 tl =>
              cases tl with
              | nil => rw [hc] at h2; simp at h2
              | cons r1 rest => exact ⟨r0, r1, rest, rfl⟩
          have hst : st.log = r0 :: r1 :: rest := hlog.trans hshape
          by_cases hs : r1.1 - r0.1 > 10
          · exact ⟨0, by simp [evaluate_exec, hE, hM, h0, hmq, hp, hm, hst, hs]⟩
          · cases hrun : is_run_valid_run C inp.env st.log st.log_step st.cpt_step with
            | error e =>
              exfalso
              unfold is_run_valid_run at hrun
              rw [h1] at hrun
              simp at hrun
            | ok s =>
              rw [hst] at hrun
              cases s with
              | valid ch mi =>
                exact ⟨npMedian (lastN ch 10),
                  by simp [evaluate_exec, hE, hM, h0, hmq, hp, hm, hst, hs, is_run_valid,
                    hrun, Except.map]⟩
              | rejected r =>
                exact ⟨0, by simp [evaluate_exec, hE, hM, h0, hmq, hp, hm, hst, hs,
                  is_run_valid, hrun, Except.map]⟩
    · exact ⟨0, by simp [evaluate_exec, hE, hM]⟩

theorem evaluate_exec_total_when_unguarded_ok_witness :
    ∃ q, evaluate_exec testConsts inpC3wx = .ok q :=
  evaluate_exec_total_when_unguarded_ok testConsts inpC3wx rfl rfl rfl (by decide)

/-- C5 counterexample: a submission whose log has a stride of 900 steps
between consecutive rows 1 and 2 is not rejected: only the first pair of
rows is examined, the submission reaches the replay stages and scores
nonzero. -/
theorem late_wide_stride_not_rejected :
    inpC5.proc.log.get? 1 = some (10, 100)
    ∧ inpC5.proc.log.get? 2 = some (910, 100)
    ∧ ((910 : ℤ) - 10 > 10)
    ∧ evaluate testConsts inpC5 = .ok 100
    ∧ (100 : ℚ) ≠ 0 := by
  refine ⟨by decide, by decide, by decide, ?_, by norm_num⟩
  norm_num [evaluate, inpC5, process_md_output_run, md_exts, lastExt, logC5, testConsts,
    check_masses, is_run_valid, is_run_valid_run, envC5, stateEnergiesOf, steps_to_run,
    check_gradient, npDiff, npMean, compare_state_to_cpt, npMedianOpt, npMedian, sortAsc,
    insertSorted, percentDiffs, pdEntry, medianPD, PyFloat.gtq, PyFloat.isNan, PyFloat.valOf,
    List.range, List.range.loop, lastN, abs_eq_max_neg, max_def, List.filterMap_cons,
    List.filterMap_nil, Except.map]

/-- C5 (corrected): the resolution gate examines only the stride between the
first two logged rows: whenever that stride exceeds 10 steps the submission
scores 0, whatever the later strides are (and conversely wide later strides
are never examined, per the counterexample). -/
theorem first_pair_stride_gate (C : Consts) (inp : EvalInput) (st : ProcState)
    (hp : process_md_output_run C inp.proc = .ok st)
    (hm : check_masses inp.validator_masses inp.miner_masses = true)
    (r0 r1 : ℤ × ℚ) (rest : List (ℤ × ℚ)) (hl : st.log = r0 :: r1 :: rest)
    (hs : r1.1 - r0.1 > 10) :
    evaluate C inp = .ok 0 := by
  simp [evaluate, hp, hm, hl, hs]

theorem first_pair_stride_gate_witness :
    evaluate testConsts inpC5w = .ok 0 :=
  first_pair_stride_gate testConsts inpC5w ⟨logC5w, 1000, 900⟩
    (by norm_num [process_md_output_run, inpC5w, md_exts, lastExt, logC5w, testConsts])
    (by decide)
    (0, 100) (100, 100)
    [(200, 100), (300, 100), (400, 100), (500, 100), (600, 100), (700, 100),
     (800, 100), (900, 100), (1000, 100)]
    rfl (by decide)

/-- C1 counterexample: a submission that passes every verification stage
receives the median of the verifier's last check energies, which for real
(negative) potential energies is negative, refuting score at least 0 for
passing submissions. -/
theorem passing_submission_score_negative :
    is_run_valid_run testConsts envC1 logC1 1000 900 = .ok (.valid envC1.checkEnergies minerC1)
    ∧ evaluate testConsts inpC1 = .ok (-100)
    ∧ ¬ ((0 : ℚ) ≤ -100) := by
  refine ⟨?_, ?_, by norm_num⟩
  · norm_num [is_run_valid_run, envC1, logC1, testConsts, stateEnergiesOf, steps_to_run,
      check_gradient, npDiff, npMean, compare_state_to_cpt, npMedianOpt, npMedian, sortAsc,
      insertSorted, percentDiffs, pdEntry, medianPD, PyFloat.gtq, PyFloat.isNan, PyFloat.valOf,
      minerC1, List.range, List.range.loop, lastN, abs_eq_max_neg, max_def,
      List.filterMap_cons, List.filterMap_nil]
  · norm_num [evaluate, inpC1, process_md_output_run, procC1, md_exts, lastExt, logC1,
      testConsts, check_masses, is_run_valid, is_run_valid_run, envC1, stateEnergiesOf,
      steps_to_run, check_gradient, npDiff, npMean, compare_state_to_cpt, npMedianOpt,
      npMedian, sortAsc, insertSorted, percentDiffs, pdEntry, medianPD, PyFloat.gtq,
      PyFloat.isNan, PyFloat.valOf, List.range, List.range.loop, lastN, abs_eq_max_neg,
      max_def, List.filterMap_cons, List.filterMap_nil, Except.map]

/-- C1 (corrected): scoring with the sign condition dropped: a rejected
submission scores exactly 0 — every nonzero score comes from a submission
that passed process_md_output, the mass check and every replay stage — and a
submission passing all stages scores the median of the final 10 samples of
the verifier's own checkpoint-replay energies (not of the worker log), a
value that may be negative. -/
theorem evaluate_score_zero_or_replay_median (C : Consts) (inp : EvalInput) :
    (∀ q, evaluate C inp = .ok q → q ≠ 0 →
      ∃ st ch mi, process_md_output_run C inp.proc = .ok st
        ∧ check_masses inp.validator_masses inp.miner_masses = true
        ∧ is_run_valid_run C inp.env st.log st.log_step st.cpt_step = .ok (.valid ch mi)
        ∧ q = npMedian (lastN ch 10))
    ∧ (∀ st ch mi, process_md_output_run C inp.proc = .ok st →
        check_masses inp.validator_masses inp.miner_masses = true →
        strideOk st.log = true →
        is_run_valid_run C inp.env st.log st.log_step st.cpt_step = .ok (.valid ch mi) →
        evaluate C inp = .ok (npMedian (lastN ch 10))) := by
  constructor
  · intro q hq hq0
    cases hp : process_md_output_run C inp.proc with
    | error e => simp [evaluate, hp] at hq; exact absurd hq.symm hq0
    | ok st =>
      cases hm : check_masses inp.validator_masses inp.miner_masses with
      | false => simp [evaluate, hp, hm] at hq; exact absurd hq.symm hq0
      | true =>
        cases hlst : st.log with
        | nil => simp [evaluate, hp, hm, hlst] at hq
        | cons r0 tl =>
          cases tl with
          | nil => simp [evaluate, hp, hm, hlst] at hq
          | cons r1 rest =>
            by_cases hs : r1.1 - r0.1 > 10
            · simp [evaluate, hp, hm, hlst, hs] at hq; exact absurd hq.symm hq0
            · cases hrun : is_run_valid_run C inp.env st.log st.log_step st.cpt_step with
              | error e =>
                rw [hlst] at hrun
                simp [evaluate, hp, hm, hlst, hs, is_run_valid, hrun, Except.map] at hq
              | ok s =>
                rw [hlst] at hrun
                cases s with
                | rejected r =>
                  simp [evaluate, hp, hm, hlst, hs, is_run_valid, hrun, Except.map] at hq
                  exact absurd hq.symm hq0
                | valid ch mi =>
                  refine ⟨st, ch, mi, rfl, rfl, ?_, ?_⟩
                  · rw [hlst]; exact hrun
                  · simp [evaluate, hp, hm, hlst, hs, is_run_valid, hrun, Except.map] at hq
                    exact hq.symm
  · intro st ch mi hp hm hstride hrun
    cases hlst : st.log with
    | nil => rw [hlst] at hstride; simp [strideOk] at hstride
    | cons r0 tl =>
      cases tl with
      | nil => rw [hlst] at hstride; simp [strideOk] at hstride
      | cons r1 rest =>
        rw [hlst] at hstride hrun
        have hle : r1.1 - r0.1 ≤ 10 := by simpa [strideOk] using hstride
        simp [evaluate, hp, hm, hlst, not_lt.mpr hle, is_run_valid, hrun, Except.map]

theorem evaluate_score_zero_or_replay_median_witness :
    evaluate testConsts inpC1 = .ok (npMedian (lastN envC1.checkEnergies 10)) :=
  (evaluate_score_zero_or_replay_median testConsts inpC1).2 ⟨logC1, 1000, 900⟩
    envC1.checkEnergies minerC1
    (by norm_num [process_md_output_run, inpC1, procC1, md_exts, lastExt, logC1, testConsts])
    (by decide) (by decide)
    (by norm_num [is_run_valid_run, inpC1, envC1, logC1, testConsts, stateEnergiesOf,
      steps_to_run, check_gradient, npDiff, npMean, compare_state_to_cpt, npMedianOpt,
      npMedian, sortAsc, insertSorted, percentDiffs, pdEntry, medianPD, PyFloat.gtq,
      PyFloat.isNan, PyFloat.valOf, minerC1, List.range, List.range.loop, lastN,
      abs_eq_max_neg, max_def, List.filterMap_cons, List.filterMap_nil])

end Folding
